import Mathlib

/-!
Verification of the Emoseum/AI gallery core: a shallow embedding of
`src/managers/gallery_manager.py` (the `GalleryItem` record, its completion
state machine, and the `GalleryManager` operations over a MongoDB-like
document store) and `src/services/emoseum_webhook.py` (the webhook client),
together with proofs of the specified properties.

Modelling conventions:
- MongoDB is modelled as a list of documents in insertion order; `find_one`
  returns the first match and `update_one` modifies the first matching
  document, reporting `modified_count = 1` exactly when the update changed it.
- Python float values are never computed on by this code (they are stored and
  copied verbatim), so float-valued slots are modelled by `Int` as opaque
  scalars.
- The `docent_message` argument is a Python `dict` of JSON-like values; it is
  modelled by the `JFields` association list below, with `dict.get` lookups.
- Timestamps, ISO date strings and the ObjectId generated by `insert_one` are
  inputs of the environment and are passed as explicit parameters.
-/

mutual
/-- A JSON-like value as stored in the `docent_message` dictionary:
strings, numbers, and nested objects. -/
inductive JVal where
  | str (s : String)
  | num (n : Int)
  | obj (fields : JFields)

/-- The (ordered) key-value entries of a JSON object / Python dictionary. -/
inductive JFields where
  | nil
  | cons (key : String) (val : JVal) (rest : JFields)
end

mutual
def JVal.decEq : (a b : JVal) → Decidable (a = b)
  | .str a, .str b =>
    if h : a = b then .isTrue (by rw [h]) else .isFalse (by intro he; cases he; exact h rfl)
  | .num a, .num b =>
    if h : a = b then .isTrue (by rw [h]) else .isFalse (by intro he; cases he; exact h rfl)
  | .obj a, .obj b =>
    match JFields.decEq a b with
    | .isTrue h => .isTrue (by rw [h])
    | .isFalse h => .isFalse (by intro he; cases he; exact h rfl)
  | .str _, .num _ => .isFalse nofun
  | .str _, .obj _ => .isFalse nofun
  | .num _, .str _ => .isFalse nofun
  | .num _, .obj _ => .isFalse nofun
  | .obj _, .str _ => .isFalse nofun
  | .obj _, .num _ => .isFalse nofun

def JFields.decEq : (a b : JFields) → Decidable (a = b)
  | .nil, .nil => .isTrue rfl
  | .nil, .cons .. => .isFalse nofun
  | .cons .., .nil => .isFalse nofun
  | .cons k v r, .cons k2 v2 r2 =>
    if hk : k = k2 then
      match JVal.decEq v v2, JFields.decEq r r2 with
      | .isTrue hv, .isTrue hr => .isTrue (by rw [hk, hv, hr])
      | .isFalse hv, _ => .isFalse (by intro he; cases he; exact hv rfl)
      | _, .isFalse hr => .isFalse (by intro he; cases he; exact hr rfl)
    else .isFalse (by intro he; cases he; exact hk rfl)
end

instance : DecidableEq JVal := JVal.decEq

instance : DecidableEq JFields := JFields.decEq

/-- Key lookup in a dictionary; `none` models a missing key. -/
def JFields.lookup : JFields → String → Option JVal
  | .nil, _ => none
  | .cons k v r, key => if k = key then some v else r.lookup key

/-- Python truthiness of a dictionary: `{}` is falsy, everything else truthy. -/
def JFields.isNil : JFields → Bool
  | .nil => true
  | .cons .. => false

/-- The MongoDB document written to the `gallery_items` collection.  The field
set is exactly the one `create_gallery_item` inserts; `mongoId` stands for the
store-generated `_id` primary key (as the string `str(doc["_id"])`), while
`item_id` is the human-readable id field.  `_doc_to_gallery_item` reads these
fields back with `doc.get` defaults that never fire on documents of this
shape, since every field is present. -/
structure ItemDoc where
  mongoId : String
  item_id : String
  user_id : String
  diary_text : String
  emotion_keywords : List String
  vad_scores : List Int
  reflection_prompt : String
  reflection_image_path : String
  artwork_title : String
  docent_message : JFields
  message_reactions : List String
  guided_question : String
  created_date : String
  coping_style : String
  diary_id : Option String
  gpt_prompt_used : Bool
  gpt_prompt_tokens : Int
  gpt_docent_used : Bool
  gpt_docent_tokens : JVal
  prompt_generation_time : Int
  prompt_generation_method : String
  docent_generation_method : String
  deriving DecidableEq

/-- The in-memory `GalleryItem` object (`GalleryItem.__init__`).  `vad_scores`
is declared `Tuple[float, float, float]` in the source but Python does not
enforce the arity, so it is modelled as a list; `gpt_docent_tokens` holds
whatever value the extraction in `add_docent_message` produced, hence `JVal`. -/
structure GalleryItem where
  item_id : String
  user_id : String
  diary_text : String
  emotion_keywords : List String
  vad_scores : List Int
  reflection_prompt : String
  reflection_image_path : String
  artwork_title : String
  docent_message : JFields
  message_reactions : List String
  guided_question : String
  created_date : String
  coping_style : String
  diary_id : Option String
  gpt_prompt_used : Bool
  gpt_prompt_tokens : Int
  gpt_docent_used : Bool
  gpt_docent_tokens : JVal
  prompt_generation_time : Int
  prompt_generation_method : String
  docent_generation_method : String
  deriving DecidableEq

/-- The dictionary returned by `GalleryItem.get_completion_status`. -/
structure CompletionStatus where
  reflection : Bool
  artwork_title : Bool
  docent_message : Bool
  completed : Bool
  deriving DecidableEq

/-- `GalleryItem.get_completion_status`: Python truthiness of the three
optional fields.  In the source the docent flag is
`bool(m and isinstance(m, dict) and m)`; the field is always a dictionary
here (as in every document the manager writes), so the `isinstance` conjunct
is identically true and the flag reduces to non-emptiness. -/
def GalleryItem.get_completion_status (g : GalleryItem) : CompletionStatus :=
  { reflection := g.reflection_image_path != ""
    artwork_title := g.artwork_title != ""
    docent_message := !g.docent_message.isNil
    completed := !g.docent_message.isNil }

/-- `GalleryItem.get_next_step`: scan the completion flags in fixed order. -/
def GalleryItem.get_next_step (g : GalleryItem) : String :=
  let status := g.get_completion_status
  if !status.reflection then "reflection"
  else if !status.artwork_title then "artwork_title"
  else if !status.docent_message then "docent_message"
  else "completed"

/-- `collection.find_one(filter)`: the first document matching the filter. -/
def findOne (docs : List ItemDoc) (filt : ItemDoc → Bool) : Option ItemDoc :=
  match docs with
  | [] => none
  | d :: rest => if filt d then some d else findOne rest filt

/-- `collection.update_one(filter, fieldsToSet)`: rewrite the first matching
document and report `modified_count`, which is 1 exactly when the new
document differs from the stored one (MongoDB does not count a no-op `$set`
as a modification). -/
def updateOne (docs : List ItemDoc) (filt : ItemDoc → Bool) (setFields : ItemDoc → ItemDoc) :
    List ItemDoc × Nat :=
  match docs with
  | [] => ([], 0)
  | d :: rest =>
    if filt d then
      (setFields d :: rest, if setFields d = d then 0 else 1)
    else
      let r := updateOne rest filt setFields
      (d :: r.1, r.2)

/-- The caller-supplied arguments of `GalleryManager.create_gallery_item`,
with the source's default values.  The PIL image argument is kept out of this
structure: the manager never inspects its bytes, it only saves it under the
derived path. -/
structure CreateArgs where
  user_id : String
  diary_text : String
  emotion_keywords : List String
  vad_scores : List Int
  reflection_prompt : String
  coping_style : String := "balanced"
  gpt_prompt_tokens : Int := 0
  prompt_generation_time : Int := 0
  diary_id : Option String := none
  deriving DecidableEq

/-- The document `create_gallery_item` inserts.  `ts1` is the
`datetime.now().strftime("%Y%m%d_%H%M%S")` value taken before the image is
saved (used in the image filename) and `ts2` the one taken again before the
document is built (used in `item_id`); `now_iso` is `now.isoformat()` and
`mongoId` the `_id` the store generates at `insert_one`. -/
def createItemDoc (images_dir : String) (a : CreateArgs) (ts1 ts2 now_iso mongoId : String) :
    ItemDoc :=
  { mongoId := mongoId
    item_id := a.user_id ++ "-" ++ ts2
    user_id := a.user_id
    diary_text := a.diary_text
    emotion_keywords := a.emotion_keywords
    vad_scores := a.vad_scores
    reflection_prompt := a.reflection_prompt
    reflection_image_path := images_dir ++ "/reflection/" ++ a.user_id ++ "_" ++ ts1 ++ "_reflection.png"
    artwork_title := ""
    docent_message := .nil
    message_reactions := []
    guided_question := ""
    created_date := now_iso
    coping_style := a.coping_style
    diary_id := a.diary_id
    gpt_prompt_used := true
    gpt_prompt_tokens := a.gpt_prompt_tokens
    gpt_docent_used := true
    gpt_docent_tokens := .num 0
    prompt_generation_time := a.prompt_generation_time
    prompt_generation_method := "gpt"
    docent_generation_method := "gpt" }

/-- `GalleryManager.create_gallery_item`: save the image, insert the document,
return the updated store and the readable `item_id`.  The detached webhook
task it may spawn is fire-and-forget and does not touch the store or the
return value, so it does not appear in the state transition. -/
def create_gallery_item (store : List ItemDoc) (images_dir : String) (a : CreateArgs)
    (ts1 ts2 now_iso mongoId : String) : List ItemDoc × String :=
  (store ++ [createItemDoc images_dir a ts1 ts2 now_iso mongoId], a.user_id ++ "-" ++ ts2)

/-- `GalleryManager.complete_artwork_title`: one `update_one` on the
`item_id` filter setting `artwork_title` and `guided_question` together;
success is `modified_count > 0`. -/
def complete_artwork_title (store : List ItemDoc) (item_id artwork_title guided_question : String) :
    List ItemDoc × Bool :=
  let r := updateOne store (fun d => d.item_id == item_id)
    (fun d => { d with artwork_title := artwork_title, guided_question := guided_question })
  (r.1, decide (0 < r.2))

/-- The token extraction at the top of `add_docent_message`:
`metadata = docent_message.get("metadata", {})` followed by
`metadata.get("token_usage", {}).get("total_tokens", 0)`.  A non-dictionary
value where a dictionary is expected makes Python raise `AttributeError`
(caught by the surrounding handler), modelled by `none`. -/
def extract_docent_tokens (docent_message : JFields) : Option JVal :=
  match (docent_message.lookup "metadata").getD (.obj .nil) with
  | .obj metaFields =>
    match (metaFields.lookup "token_usage").getD (.obj .nil) with
    | .obj usageFields => some ((usageFields.lookup "total_tokens").getD (.num 0))
    | _ => none
  | _ => none

/-- `GalleryManager.add_docent_message`: extract the token count, then one
`update_one` setting `docent_message` and `gpt_docent_tokens` together;
success is `modified_count > 0`, and any exception (including the
`AttributeError` from a malformed message) yields `False` with no update.
The detached webhook task spawned on success does not touch the store. -/
def add_docent_message (store : List ItemDoc) (item_id : String) (docent_message : JFields) :
    List ItemDoc × Bool :=
  match extract_docent_tokens docent_message with
  | none => (store, false)
  | some tok =>
    let r := updateOne store (fun d => d.item_id == item_id)
      (fun d => { d with docent_message := docent_message, gpt_docent_tokens := tok })
    (r.1, decide (0 < r.2))

/-- `bson.ObjectId(s)` succeeds exactly on 24-character hexadecimal strings;
`isValidObjectId` is that validity test. -/
def isValidObjectId (s : String) : Bool :=
  s.length == 24 && s.data.all fun c =>
    c.isDigit || ('a' ≤ c && c ≤ 'f') || ('A' ≤ c && c ≤ 'F')

/-- `GalleryManager._doc_to_gallery_item`: rebuild a `GalleryItem` from a
stored document.  The object's `item_id` is `str(doc["_id"])`, i.e. the
store's primary key, not the document's readable `item_id` field; every other
field is copied (the `doc.get` defaults never fire because all documents the
manager writes carry every field). -/
def doc_to_gallery_item (doc : ItemDoc) : GalleryItem :=
  { item_id := doc.mongoId
    user_id := doc.user_id
    diary_text := doc.diary_text
    emotion_keywords := doc.emotion_keywords
    vad_scores := doc.vad_scores
    reflection_prompt := doc.reflection_prompt
    reflection_image_path := doc.reflection_image_path
    artwork_title := doc.artwork_title
    docent_message := doc.docent_message
    message_reactions := doc.message_reactions
    guided_question := doc.guided_question
    created_date := doc.created_date
    coping_style := doc.coping_style
    diary_id := doc.diary_id
    gpt_prompt_used := doc.gpt_prompt_used
    gpt_prompt_tokens := doc.gpt_prompt_tokens
    gpt_docent_used := doc.gpt_docent_used
    gpt_docent_tokens := doc.gpt_docent_tokens
    prompt_generation_time := doc.prompt_generation_time
    prompt_generation_method := doc.prompt_generation_method
    docent_generation_method := doc.docent_generation_method }

/-- `GalleryManager.get_gallery_item`: try `find_one({"_id": ObjectId(id)})`
first (the `ObjectId` constructor throwing on an invalid id is caught and
skipped), then fall back to `find_one({"item_id": id})`; `None` when neither
lookup matches. -/
def get_gallery_item (store : List ItemDoc) (item_id : String) : Option GalleryItem :=
  match (if isValidObjectId item_id then findOne store (fun d => d.mongoId == item_id) else none) with
  | some doc => some (doc_to_gallery_item doc)
  | none =>
    match findOne store (fun d => d.item_id == item_id) with
    | some doc => some (doc_to_gallery_item doc)
    | none => none

/-- The keyword arguments of
`EmoseumWebhookService.send_gallery_item_update`, all optional. -/
structure WebhookArgs where
  diary_id : String
  emotion_keywords : Option (List String) := none
  artwork_title : Option String := none
  guided_question : Option String := none
  vad_scores : Option (List Int) := none
  user_id : Option String := none
  deriving DecidableEq

/-- The JSON payload the webhook builds: `diary_id` and `updated_at` always,
the other keys present only when the corresponding argument is truthy. -/
structure WebhookPayload where
  diary_id : String
  updated_at : String
  keywords : Option (List String) := none
  title : Option String := none
  guided_question : Option String := none
  vad_scores : Option (List Int) := none
  user_id : Option String := none
  deriving DecidableEq

/-- Python truthiness of an optional list: `None` and `[]` are falsy. -/
def truthyList {α : Type} (x : Option (List α)) : Bool :=
  match x with
  | some (_ :: _) => true
  | _ => false

/-- Python truthiness of an optional string: `None` and `""` are falsy. -/
def truthyStr (x : Option String) : Bool :=
  match x with
  | some s => s != ""
  | none => false

/-- The payload construction in `send_gallery_item_update`: each optional
field is added under `if value:`, so falsy values are dropped. -/
def buildWebhookPayload (a : WebhookArgs) (updated_at : String) : WebhookPayload :=
  { diary_id := a.diary_id
    updated_at := updated_at
    keywords := if truthyList a.emotion_keywords then a.emotion_keywords else none
    title := if truthyStr a.artwork_title then a.artwork_title else none
    guided_question := if truthyStr a.guided_question then a.guided_question else none
    vad_scores := if truthyList a.vad_scores then a.vad_scores else none
    user_id := if truthyStr a.user_id then a.user_id else none }

instance : DecidableEq (Except String JVal) := fun a b =>
  match a, b with
  | .ok x, .ok y =>
    if h : x = y then .isTrue (by rw [h]) else .isFalse (by intro he; cases he; exact h rfl)
  | .error x, .error y =>
    if h : x = y then .isTrue (by rw [h]) else .isFalse (by intro he; cases he; exact h rfl)
  | .ok _, .error _ => .isFalse nofun
  | .error _, .ok _ => .isFalse nofun

/-- The outcome of the single POST the webhook issues: an HTTP response with
a status, a JSON-decode result for the body (`Except` carries the decode
error message) and the raw body text; or a timeout; or any other transport
error raised by the client. -/
inductive HttpOutcome where
  | response (status : Nat) (bodyJson : Except String JVal) (bodyText : String)
  | timeout
  | transportError (msg : String)
  deriving DecidableEq

/-- The dictionary `send_gallery_item_update` returns; keys absent from a
given return path are `none`. -/
structure WebhookResult where
  success : Bool
  message : Option String := none
  data : Option JVal := none
  error : Option String := none
  retry_recommended : Option Bool := none
  deriving DecidableEq

/-- `EmoseumWebhookService.send_gallery_item_update`, as a function of the
HTTP outcome.  A 200 response with a decodable body is the only success path;
a decode failure on a 200 raises inside the `try` and is caught by the
generic handler; every failure path returns `success=False,
retry_recommended=True`, and no path re-raises to the caller. -/
def send_gallery_item_update (outcome : HttpOutcome) : WebhookResult :=
  match outcome with
  | .response status bodyJson bodyText =>
    if status = 200 then
      match bodyJson with
      | .ok j =>
        { success := true, message := some "Gallery item updated successfully", data := some j }
      | .error e =>
        { success := false, error := some e, retry_recommended := some true }
    else
      { success := false
        error := some ("HTTP " ++ toString status ++ ": " ++ bodyText)
        retry_recommended := some true }
  | .timeout =>
    { success := false, error := some "Request timeout", retry_recommended := some true }
  | .transportError e =>
    { success := false, error := some e, retry_recommended := some true }

/-- The raw image content a caller uploads: either it decodes to an image
(whose pixels the core never inspects, hence opaque) or it does not. -/
inductive ImageContent where
  | decodable (image : Nat)
  | undecodable
  deriving DecidableEq

/-- The error taxonomy of the creation path. -/
inductive CreateError where
  | validationError
  | storageError
  deriving DecidableEq

/-- Modelled from the spec: the request layer of `CreateRecord` — the API
routers under `api/routers/` that receive the upload, decode the image and
validate the VAD tuple before `GalleryManager.create_gallery_item` runs —
is not under `src/`.  Per the spec, a `vadScore` that is not exactly 3
floats or an undecodable image is rejected with `ValidationError` before
anything is persisted; otherwise creation proceeds as in the manager. -/
def createRecord (store : List ItemDoc) (images_dir : String) (img : ImageContent)
    (a : CreateArgs) (ts1 ts2 now_iso mongoId : String) :
    List ItemDoc × Except CreateError String :=
  if a.vad_scores.length = 3 then
    match img with
    | .decodable _ =>
      ((create_gallery_item store images_dir a ts1 ts2 now_iso mongoId).1,
       .ok (create_gallery_item store images_dir a ts1 ts2 now_iso mongoId).2)
    | .undecodable => (store, .error .validationError)
  else (store, .error .validationError)

/-- A concrete, well-formed creation input used to evaluate the theorems. -/
def sampleArgs : CreateArgs :=
  { user_id := "alice"
    diary_text := "a calm day"
    emotion_keywords := ["calm", "tired"]
    vad_scores := [1, 0, 1]
    reflection_prompt := "sunrise over water"
    diary_id := some "diary-1" }

/-- A creation input whose VAD tuple has only 2 entries. -/
def badVadArgs : CreateArgs :=
  { sampleArgs with vad_scores := [1, 0] }

/-- A concrete stored document: image and title present, review absent. -/
def sampleDoc : ItemDoc :=
  { mongoId := "64b0c0ffee0000000000abcd"
    item_id := "alice-20250101_120000"
    user_id := "alice"
    diary_text := "a calm day"
    emotion_keywords := ["calm", "tired"]
    vad_scores := [1, 0, 1]
    reflection_prompt := "sunrise over water"
    reflection_image_path := "data/gallery_images/reflection/alice_20250101_120000_reflection.png"
    artwork_title := "Quiet Morning"
    docent_message := .nil
    message_reactions := []
    guided_question := "What made this moment calm?"
    created_date := "2025-01-01T12:00:00"
    coping_style := "balanced"
    diary_id := some "diary-1"
    gpt_prompt_used := true
    gpt_prompt_tokens := 5
    gpt_docent_used := true
    gpt_docent_tokens := .num 0
    prompt_generation_time := 2
    prompt_generation_method := "gpt"
    docent_generation_method := "gpt" }

/-- The same document before its title step: `artwork_title` still empty. -/
def sampleDocUntitled : ItemDoc :=
  { sampleDoc with artwork_title := "" }

/-- A concrete docent message whose metadata carries `total_tokens: 42`. -/
def msg42 : JFields :=
  .cons "content" (.str "A gentle meditation on your artwork.")
    (.cons "metadata"
      (.obj (.cons "token_usage" (.obj (.cons "total_tokens" (.num 42) .nil)) .nil)) .nil)

/-- An empty dictionary is exactly `JFields.nil`. -/
lemma JFields.isNil_iff (fs : JFields) : fs.isNil = true ↔ fs = .nil := by
  cases fs <;> simp [JFields.isNil]

lemma findOne_cons_pos (d : ItemDoc) (rest : List ItemDoc) (filt : ItemDoc → Bool)
    (h : filt d = true) : findOne (d :: rest) filt = some d := by
  simp [findOne, h]

lemma findOne_cons_neg (d : ItemDoc) (rest : List ItemDoc) (filt : ItemDoc → Bool)
    (h : filt d = false) : findOne (d :: rest) filt = findOne rest filt := by
  simp [findOne, h]

lemma findOne_nomatch (docs : List ItemDoc) (filt : ItemDoc → Bool)
    (h : ∀ d ∈ docs, filt d = false) : findOne docs filt = none := by
  induction docs with
  | nil => rfl
  | cons d rest ih =>
    rw [findOne_cons_neg d rest filt (h d (List.mem_cons_self d rest))]
    exact ih fun x hx => h x (List.mem_cons_of_mem d hx)

lemma findOne_append_split (pre : List ItemDoc) (d : ItemDoc) (post : List ItemDoc)
    (filt : ItemDoc → Bool) (hpre : ∀ x ∈ pre, filt x = false) (hd : filt d = true) :
    findOne (pre ++ d :: post) filt = some d := by
  induction pre with
  | nil => simpa using findOne_cons_pos d post filt hd
  | cons p pre' ih =>
    rw [List.cons_append, findOne_cons_neg p _ filt (hpre p (List.mem_cons_self p pre'))]
    exact ih fun x hx => hpre x (List.mem_cons_of_mem p hx)

lemma updateOne_cons_pos (d : ItemDoc) (rest : List ItemDoc) (filt : ItemDoc → Bool)
    (f : ItemDoc → ItemDoc) (h : filt d = true) :
    updateOne (d :: rest) filt f = (f d :: rest, if f d = d then 0 else 1) := by
  simp [updateOne, h]

lemma updateOne_cons_neg (d : ItemDoc) (rest : List ItemDoc) (filt : ItemDoc → Bool)
    (f : ItemDoc → ItemDoc) (h : filt d = false) :
    updateOne (d :: rest) filt f = (d :: (updateOne rest filt f).1, (updateOne rest filt f).2) := by
  simp [updateOne, h]

lemma updateOne_append_split (pre : List ItemDoc) (d : ItemDoc) (post : List ItemDoc)
    (filt : ItemDoc → Bool) (f : ItemDoc → ItemDoc)
    (hpre : ∀ x ∈ pre, filt x = false) (hd : filt d = true) :
    updateOne (pre ++ d :: post) filt f = (pre ++ f d :: post, if f d = d then 0 else 1) := by
  induction pre with
  | nil => simpa using updateOne_cons_pos d post filt f hd
  | cons p pre' ih =>
    rw [List.cons_append, updateOne_cons_neg p _ filt f (hpre p (List.mem_cons_self p pre')),
      ih fun x hx => hpre x (List.mem_cons_of_mem p hx)]
    simp

/-- `modified_count` is zero exactly when no document matches the filter, or
the first matching document is left unchanged by the update. -/
lemma updateOne_count_zero_iff (docs : List ItemDoc) (filt : ItemDoc → Bool)
    (f : ItemDoc → ItemDoc) :
    (updateOne docs filt f).2 = 0 ↔
      (∀ d ∈ docs, filt d = false) ∨
      ∃ pre d post, docs = pre ++ d :: post ∧ (∀ x ∈ pre, filt x = false) ∧
        filt d = true ∧ f d = d := by
  induction docs with
  | nil => simp [updateOne]
  | cons d rest ih =>
    cases hf : filt d with
    | true =>
      rw [updateOne_cons_pos d rest filt f hf]
      constructor
      · intro h0
        by_cases he : f d = d
        · exact Or.inr ⟨[], d, rest, rfl, by simp, hf, he⟩
        · simp [he] at h0
      · rintro (hall | ⟨pre, d', post, hsplit, hpre, hd', heq⟩)
        · have := hall d (List.mem_cons_self d rest)
          rw [hf] at this
          exact absurd this (by simp)
        · cases pre with
          | nil =>
            simp only [List.nil_append, List.cons.injEq] at hsplit
            rw [hsplit.1, heq]
            simp
          | cons p pre' =>
            simp only [List.cons_append, List.cons.injEq] at hsplit
            have hp := hpre p (List.mem_cons_self p pre')
            rw [← hsplit.1, hf] at hp
            exact absurd hp (by simp)
    | false =>
      rw [updateOne_cons_neg d rest filt f hf]
      simp only []
      rw [ih]
      constructor
      · rintro (hall | ⟨pre, d', post, hsplit, hpre, hd', heq⟩)
        · refine Or.inl fun x hx => ?_
          rcases List.mem_cons.mp hx with h | h
          · rw [h]; exact hf
          · exact hall x h
        · refine Or.inr ⟨d :: pre, d', post, by rw [hsplit, List.cons_append], ?_, hd', heq⟩
          intro x hx
          rcases List.mem_cons.mp hx with h | h
          · rw [h]; exact hf
          · exact hpre x h
      · rintro (hall | ⟨pre, d', post, hsplit, hpre, hd', heq⟩)
        · exact Or.inl fun x hx => hall x (List.mem_cons_of_mem d hx)
        · cases pre with
          | nil =>
            simp only [List.nil_append, List.cons.injEq] at hsplit
            rw [← hsplit.1, hf] at hd'
            exact absurd hd' (by simp)
          | cons p pre' =>
            simp only [List.cons_append, List.cons.injEq] at hsplit
            exact Or.inr ⟨pre', d', post, hsplit.2,
              fun x hx => hpre x (List.mem_cons_of_mem p hx), hd', heq⟩

/-- When `modified_count` is positive, the store splits around a changed
first match, and the resulting store replaces exactly that document. -/
lemma updateOne_result_of_pos (docs : List ItemDoc) (filt : ItemDoc → Bool)
    (f : ItemDoc → ItemDoc) (h : (updateOne docs filt f).2 ≠ 0) :
    ∃ pre d post, docs = pre ++ d :: post ∧ (∀ x ∈ pre, filt x = false) ∧
      filt d = true ∧ f d ≠ d ∧ (updateOne docs filt f).1 = pre ++ f d :: post := by
  induction docs with
  | nil => exact absurd rfl h
  | cons d rest ih =>
    cases hf : filt d with
    | true =>
      rw [updateOne_cons_pos d rest filt f hf] at h ⊢
      by_cases he : f d = d
      · simp [he] at h
      · exact ⟨[], d, rest, rfl, by simp, hf, he, rfl⟩
    | false =>
      rw [updateOne_cons_neg d rest filt f hf] at h ⊢
      simp only [] at h ⊢
      obtain ⟨pre, d', post, hsplit, hpre, hd', hne, hres⟩ := ih h
      refine ⟨d :: pre, d', post, by rw [hsplit, List.cons_append], ?_, hd', hne, ?_⟩
      · intro x hx
        rcases List.mem_cons.mp hx with hx | hx
        · rw [hx]; exact hf
        · exact hpre x hx
      · rw [hres, List.cons_append]

/-- The title/question update leaves a document unchanged exactly when the
document already holds those values. -/
lemma set_title_question_eq_self_iff (d : ItemDoc) (t gq : String) :
    ({ d with artwork_title := t, guided_question := gq } : ItemDoc) = d ↔
      d.artwork_title = t ∧ d.guided_question = gq := by
  constructor
  · intro h
    exact ⟨(congrArg ItemDoc.artwork_title h).symm, (congrArg ItemDoc.guided_question h).symm⟩
  · rintro ⟨h1, h2⟩
    cases d
    simp only [ItemDoc.mk.injEq] at h1 h2 ⊢
    simp_all

/-- C1: for every record, `nextStep` is a pure function of the record's
fields, computed in fixed order: if the image reference is empty it returns
the reflection step; otherwise if the title is empty it returns the title
step (the source string "artwork_title"); otherwise if the review message is
empty it returns the review step (the source string "docent_message");
otherwise "completed". -/
theorem C1_next_step_fixed_order (g : GalleryItem) :
    g.get_next_step =
      (if g.reflection_image_path = "" then "reflection"
       else if g.artwork_title = "" then "artwork_title"
       else if g.docent_message = JFields.nil then "docent_message"
       else "completed") := by
  simp only [GalleryItem.get_next_step, GalleryItem.get_completion_status]
  by_cases h1 : g.reflection_image_path = "" <;>
    by_cases h2 : g.artwork_title = "" <;>
      by_cases h3 : g.docent_message = JFields.nil <;>
        simp [h1, h2, h3, JFields.isNil_iff]

/-- C2: for every creation input, the document persisted by
`create_gallery_item` has a non-empty `reflection_image_path`, an empty
`artwork_title` and an empty `docent_message`, so reading it back yields a
record whose next step is the title step ("artwork_title"), never
"reflection". -/
theorem C2_created_record_next_step (store : List ItemDoc) (images_dir : String)
    (a : CreateArgs) (ts1 ts2 now_iso mongoId : String) :
    create_gallery_item store images_dir a ts1 ts2 now_iso mongoId =
      (store ++ [createItemDoc images_dir a ts1 ts2 now_iso mongoId], a.user_id ++ "-" ++ ts2)
    ∧ (createItemDoc images_dir a ts1 ts2 now_iso mongoId).reflection_image_path ≠ ""
    ∧ (createItemDoc images_dir a ts1 ts2 now_iso mongoId).artwork_title = ""
    ∧ (createItemDoc images_dir a ts1 ts2 now_iso mongoId).docent_message = JFields.nil
    ∧ (doc_to_gallery_item (createItemDoc images_dir a ts1 ts2 now_iso mongoId)).get_next_step =
        "artwork_title" := by
  have h0 : ("" : String).length = 0 := by decide
  have h15 : ("_reflection.png" : String).length = 15 := by decide
  have himg : (createItemDoc images_dir a ts1 ts2 now_iso mongoId).reflection_image_path ≠ "" := by
    show images_dir ++ "/reflection/" ++ a.user_id ++ "_" ++ ts1 ++ "_reflection.png" ≠ ""
    intro h
    have h2 := congrArg String.length h
    rw [String.length_append] at h2
    omega
  refine ⟨rfl, himg, rfl, rfl, ?_⟩
  have himg' : images_dir ++ "/reflection/" ++ a.user_id ++ "_" ++ ts1 ++ "_reflection.png" ≠ "" :=
    himg
  simp [doc_to_gallery_item, GalleryItem.get_next_step, GalleryItem.get_completion_status,
    himg', createItemDoc, JFields.isNil]

/-- C3: spec-modelled `CreateRecord` rejects a VAD tuple that is not exactly
3 entries, and an undecodable image, with `ValidationError`, leaving the
store untouched (nothing is persisted). -/
theorem C3_create_validation (store : List ItemDoc) (images_dir : String) (img : ImageContent)
    (a : CreateArgs) (ts1 ts2 now_iso mongoId : String)
    (h : a.vad_scores.length ≠ 3 ∨ img = ImageContent.undecodable) :
    createRecord store images_dir img a ts1 ts2 now_iso mongoId =
      (store, Except.error CreateError.validationError) := by
  rcases h with h | h
  · simp [createRecord, h]
  · subst h
    by_cases h3 : a.vad_scores.length = 3 <;> simp [createRecord, h3]

/-- C3 witness: a 2-entry VAD tuple is rejected and nothing is stored. -/
theorem C3_create_validation_witness :
    createRecord [] "data/gallery_images" (ImageContent.decodable 0) badVadArgs
        "20250101_120000" "20250101_120000" "2025-01-01T12:00:00" "64b0c0ffee0000000000abcd" =
      ([], Except.error CreateError.validationError) :=
  C3_create_validation [] "data/gallery_images" (ImageContent.decodable 0) badVadArgs
    "20250101_120000" "20250101_120000" "2025-01-01T12:00:00" "64b0c0ffee0000000000abcd"
    (Or.inl (by decide))

/-- C4: the webhook returns `success=true` exactly on an HTTP 200 response
with a decodable body, and on every other outcome (non-200 status, body
decode failure, timeout, transport error) it returns `success=false`
together with `retry_recommended=true`; being a total function of the
outcome, it never raises to its caller. -/
theorem C4_webhook_result (o : HttpOutcome) :
    ((send_gallery_item_update o).success = true ↔
      ∃ j t, o = HttpOutcome.response 200 (Except.ok j) t)
    ∧ ((send_gallery_item_update o).success = false →
      (send_gallery_item_update o).retry_recommended = some true) := by
  cases o with
  | response status bodyJson bodyText =>
    by_cases hs : status = 200
    · subst hs
      cases bodyJson with
      | ok j =>
        refine ⟨⟨fun _ => ⟨j, bodyText, rfl⟩, fun _ => rfl⟩, fun h => ?_⟩
        simp [send_gallery_item_update] at h
      | error e =>
        refine ⟨⟨fun h => ?_, fun h => ?_⟩, fun _ => rfl⟩
        · simp [send_gallery_item_update] at h
        · obtain ⟨j, t, heq⟩ := h
          simp at heq
    · refine ⟨⟨fun h => ?_, fun h => ?_⟩, fun _ => by simp [send_gallery_item_update, hs]⟩
      · simp [send_gallery_item_update, hs] at h
      · obtain ⟨j, t, heq⟩ := h
        injection heq with h1 _ _
        exact absurd h1 hs
  | timeout =>
    refine ⟨⟨fun h => ?_, fun h => ?_⟩, fun _ => rfl⟩
    · simp [send_gallery_item_update] at h
    · obtain ⟨j, t, heq⟩ := h
      simp at heq
  | transportError e =>
    refine ⟨⟨fun h => ?_, fun h => ?_⟩, fun _ => rfl⟩
    · simp [send_gallery_item_update] at h
    · obtain ⟨j, t, heq⟩ := h
      simp at heq

/-- C4 witness: an HTTP 500 response yields `success=false,
retry_recommended=true`. -/
theorem C4_webhook_witness :
    (send_gallery_item_update
      (HttpOutcome.response 500 (Except.error "server error") "Internal Server Error")).success
        = false
    ∧ (send_gallery_item_update
      (HttpOutcome.response 500 (Except.error "server error")
        "Internal Server Error")).retry_recommended = some true :=
  ⟨by decide,
   (C4_webhook_result
      (HttpOutcome.response 500 (Except.error "server error") "Internal Server Error")).2
     (by decide)⟩

/-- C8: a record produced by creation carries a `vad_scores` of exactly 3
entries whenever the creation input does (the declared parameter type,
`Tuple[float, float, float]`), and reading any stored document back
preserves the arity — it is never partially populated. -/
theorem C8_vad_three_entries (images_dir : String) (a : CreateArgs)
    (ts1 ts2 now_iso mongoId : String) (h : a.vad_scores.length = 3) :
    (createItemDoc images_dir a ts1 ts2 now_iso mongoId).vad_scores.length = 3
    ∧ (doc_to_gallery_item (createItemDoc images_dir a ts1 ts2 now_iso mongoId)).vad_scores.length
        = 3
    ∧ ∀ doc : ItemDoc, doc.vad_scores.length = 3 →
        (doc_to_gallery_item doc).vad_scores.length = 3 :=
  ⟨h, h, fun _ hd => hd⟩

/-- C8 witness: the sample creation input yields a 3-entry VAD tuple. -/
theorem C8_vad_three_entries_witness :
    (createItemDoc "data/gallery_images" sampleArgs "20250101_120000" "20250101_120000"
      "2025-01-01T12:00:00" "64b0c0ffee0000000000abcd").vad_scores.length = 3 :=
  (C8_vad_three_entries "data/gallery_images" sampleArgs "20250101_120000" "20250101_120000"
    "2025-01-01T12:00:00" "64b0c0ffee0000000000abcd" (by decide)).1

/-- C5: `add_docent_message` extracts the token count from the message's
metadata (defaulting to 0 when absent) and writes the message and that count
in a single document update; with `total_tokens: 42` in the metadata, the
stored count is `42` and the updated record's next step is "completed". -/
theorem C5_review_stores_tokens (pre post : List ItemDoc) (d : ItemDoc) (iid : String)
    (msg : JFields)
    (hpre : ∀ x ∈ pre, x.item_id ≠ iid) (hd : d.item_id = iid)
    (hmsg : extract_docent_tokens msg = some (JVal.num 42))
    (hchange : msg ≠ d.docent_message)
    (himg : d.reflection_image_path ≠ "") (htitle : d.artwork_title ≠ "") :
    add_docent_message (pre ++ d :: post) iid msg =
      (pre ++ { d with docent_message := msg, gpt_docent_tokens := JVal.num 42 } :: post, true)
    ∧ (doc_to_gallery_item
        { d with docent_message := msg, gpt_docent_tokens := JVal.num 42 }).get_next_step =
          "completed"
    ∧ (∀ m : JFields, m.lookup "metadata" = none →
        extract_docent_tokens m = some (JVal.num 0)) := by
  have hmsgnil : msg ≠ JFields.nil := by
    intro h
    rw [h] at hmsg
    exact absurd hmsg (by decide)
  have hfd : ({ d with docent_message := msg, gpt_docent_tokens := JVal.num 42 } : ItemDoc)
      ≠ d := by
    intro h
    exact hchange (congrArg ItemDoc.docent_message h)
  have hpre' : ∀ x ∈ pre, (x.item_id == iid) = false := fun x hx => by simp [hpre x hx]
  have hd' : (d.item_id == iid) = true := by simp [hd]
  refine ⟨?_, ?_, ?_⟩
  · simp only [add_docent_message, hmsg]
    rw [updateOne_append_split pre d post _ _ hpre' hd']
    simp [hfd]
  · have hnil : msg.isNil = false := by
      cases msg with
      | nil => exact absurd rfl hmsgnil
      | cons k v r => rfl
    have himg' : (d.reflection_image_path != "") = true := by simp [himg]
    have htitle' : (d.artwork_title != "") = true := by simp [htitle]
    simp [doc_to_gallery_item, GalleryItem.get_next_step, GalleryItem.get_completion_status,
      himg', htitle', hnil, himg, htitle]
  · intro m hm
    simp [extract_docent_tokens, hm, JFields.lookup]

/-- C5 witness: adding `msg42` to the stored sample document succeeds and
stores token count 42. -/
theorem C5_review_stores_tokens_witness :
    add_docent_message [sampleDoc] "alice-20250101_120000" msg42 =
      ([{ sampleDoc with docent_message := msg42, gpt_docent_tokens := JVal.num 42 }], true) :=
  (C5_review_stores_tokens [] [] sampleDoc "alice-20250101_120000" msg42
    (by simp) (by decide) (by decide) (by decide) (by decide) (by decide)).1

/-- C9: `add_docent_message` on a record whose title is still empty succeeds
all the same and sets the docent message — no title-before-review ordering
is enforced at the storage layer. -/
theorem C9_review_without_title (pre post : List ItemDoc) (d : ItemDoc) (iid : String)
    (msg : JFields) (tok : JVal)
    (hpre : ∀ x ∈ pre, x.item_id ≠ iid) (hd : d.item_id = iid)
    (htitle : d.artwork_title = "")
    (hmsg : extract_docent_tokens msg = some tok)
    (hchange : msg ≠ d.docent_message) :
    add_docent_message (pre ++ d :: post) iid msg =
      (pre ++ { d with docent_message := msg, gpt_docent_tokens := tok } :: post, true)
    ∧ ({ d with docent_message := msg, gpt_docent_tokens := tok } : ItemDoc).docent_message =
        msg := by
  have hfd : ({ d with docent_message := msg, gpt_docent_tokens := tok } : ItemDoc) ≠ d := by
    intro h
    exact hchange (congrArg ItemDoc.docent_message h)
  have hpre' : ∀ x ∈ pre, (x.item_id == iid) = false := fun x hx => by simp [hpre x hx]
  have hd' : (d.item_id == iid) = true := by simp [hd]
  refine ⟨?_, rfl⟩
  simp only [add_docent_message, hmsg]
  rw [updateOne_append_split pre d post _ _ hpre' hd']
  simp [hfd]

/-- C9 witness: the docent message lands on a record with no title. -/
theorem C9_review_without_title_witness :
    add_docent_message [sampleDocUntitled] "alice-20250101_120000" msg42 =
      ([{ sampleDocUntitled with docent_message := msg42, gpt_docent_tokens := JVal.num 42 }],
        true) :=
  (C9_review_without_title [] [] sampleDocUntitled "alice-20250101_120000" msg42 (JVal.num 42)
    (by simp) (by decide) (by decide) (by decide) (by decide)).1

/-- C6: `complete_artwork_title` returns false exactly when no stored
document carries the requested `item_id`, or the first such document already
holds the given title and question (the update modifies zero fields);
otherwise it sets `artwork_title` and `guided_question` together in one
document update and returns true. -/
theorem C6_complete_title_result (store : List ItemDoc) (iid t gq : String) :
    ((complete_artwork_title store iid t gq).2 = false ↔
      (∀ d ∈ store, d.item_id ≠ iid) ∨
      ∃ pre d post, store = pre ++ d :: post ∧ (∀ x ∈ pre, x.item_id ≠ iid) ∧
        d.item_id = iid ∧ d.artwork_title = t ∧ d.guided_question = gq)
    ∧ ((complete_artwork_title store iid t gq).2 = true →
      ∃ pre d post, store = pre ++ d :: post ∧ (∀ x ∈ pre, x.item_id ≠ iid) ∧
        d.item_id = iid ∧ ¬(d.artwork_title = t ∧ d.guided_question = gq) ∧
        (complete_artwork_title store iid t gq).1 =
          pre ++ { d with artwork_title := t, guided_question := gq } :: post) := by
  constructor
  · show (decide (0 < (updateOne store (fun x => x.item_id == iid)
        (fun x => { x with artwork_title := t, guided_question := gq })).2) = false) ↔ _
    rw [decide_eq_false_iff_not, Nat.not_lt, Nat.le_zero, updateOne_count_zero_iff]
    constructor
    · rintro (hall | ⟨pre, d, post, hsplit, hpre, hd, heq⟩)
      · exact Or.inl fun d hd => by simpa using hall d hd
      · have heq' := (set_title_question_eq_self_iff d t gq).mp heq
        exact Or.inr ⟨pre, d, post, hsplit, fun x hx => by simpa using hpre x hx,
          by simpa using hd, heq'.1, heq'.2⟩
    · rintro (hall | ⟨pre, d, post, hsplit, hpre, hd, ht, hq⟩)
      · exact Or.inl fun d hd => by simp [hall d hd]
      · exact Or.inr ⟨pre, d, post, hsplit, fun x hx => by simp [hpre x hx], by simp [hd],
          (set_title_question_eq_self_iff d t gq).mpr ⟨ht, hq⟩⟩
  · intro h
    have hn : (updateOne store (fun x => x.item_id == iid)
        (fun x => { x with artwork_title := t, guided_question := gq })).2 ≠ 0 := by
      intro h0
      rw [show (complete_artwork_title store iid t gq).2 =
        decide (0 < (updateOne store (fun x => x.item_id == iid)
          (fun x => { x with artwork_title := t, guided_question := gq })).2) from rfl, h0] at h
      simp at h
    obtain ⟨pre, d, post, hsplit, hpre, hd, hne, hres⟩ :=
      updateOne_result_of_pos store _ _ hn
    refine ⟨pre, d, post, hsplit, fun x hx => by simpa using hpre x hx, by simpa using hd,
      ?_, hres⟩
    intro hb
    exact hne ((set_title_question_eq_self_iff d t gq).mpr hb)

/-- C6 witness: an empty store has no matching record, so the call reports
failure. -/
theorem C6_complete_title_result_witness :
    (complete_artwork_title [] "alice-20250101_120000" "Quiet Morning"
      "What made this moment calm?").2 = false :=
  (C6_complete_title_result [] "alice-20250101_120000" "Quiet Morning"
    "What made this moment calm?").1.mpr (Or.inl (by simp))

/-- C7: `get_gallery_item` resolves by the store's primary key when the
identifier is a valid `ObjectId` and the lookup hits, falls back to the
human-readable `item_id` field when the identifier is not a valid key or the
primary lookup misses, and returns `none` (not-found) rather than throwing
when nothing matches under either form. -/
theorem C7_get_record_dual_lookup (store : List ItemDoc) (iid : String) :
    (∀ d : ItemDoc, isValidObjectId iid = true →
      findOne store (fun x => x.mongoId == iid) = some d →
      get_gallery_item store iid = some (doc_to_gallery_item d))
    ∧ (isValidObjectId iid = false →
      get_gallery_item store iid =
        Option.map doc_to_gallery_item (findOne store (fun x => x.item_id == iid)))
    ∧ (findOne store (fun x => x.mongoId == iid) = none →
      get_gallery_item store iid =
        Option.map doc_to_gallery_item (findOne store (fun x => x.item_id == iid)))
    ∧ ((∀ d ∈ store, d.mongoId ≠ iid ∧ d.item_id ≠ iid) →
      get_gallery_item store iid = none) := by
  refine ⟨?_, ?_, ?_, ?_⟩
  · intro d hv hf
    simp [get_gallery_item, hv, hf]
  · intro hv
    simp only [get_gallery_item, hv, Bool.false_eq_true, if_false]
    cases findOne store (fun x => x.item_id == iid) <;> simp
  · intro hf
    by_cases hv : isValidObjectId iid
    · simp only [get_gallery_item, hv, if_true, hf]
      cases findOne store (fun x => x.item_id == iid) <;> simp
    · simp only [get_gallery_item, Bool.not_eq_true] at hv ⊢
      simp only [hv, Bool.false_eq_true, if_false]
      cases findOne store (fun x => x.item_id == iid) <;> simp
  · intro hall
    have h1 : findOne store (fun x => x.mongoId == iid) = none :=
      findOne_nomatch _ _ fun d hd => by simp [(hall d hd).1]
    have h2 : findOne store (fun x => x.item_id == iid) = none :=
      findOne_nomatch _ _ fun d hd => by simp [(hall d hd).2]
    by_cases hv : isValidObjectId iid <;> simp [get_gallery_item, hv, h1, h2]

/-- C7 witness: an identifier matching nothing yields not-found. -/
theorem C7_get_record_dual_lookup_witness :
    get_gallery_item [sampleDoc] "missing-id" = none :=
  (C7_get_record_dual_lookup [sampleDoc] "missing-id").2.2.2 (by decide)

/-- C10: the record `get_gallery_item` returns carries the store's primary
key as its `item_id`, not the readable identifier `create_gallery_item`
returned; fetching a freshly created record by the handed-out identifier
yields a record whose `item_id` differs from it. -/
theorem C10_returned_id_is_primary_key (images_dir : String) (a : CreateArgs)
    (ts1 ts2 now_iso mongoId : String)
    (h : mongoId ≠ a.user_id ++ "-" ++ ts2) :
    (∀ doc : ItemDoc, (doc_to_gallery_item doc).item_id = doc.mongoId)
    ∧ ∃ g : GalleryItem,
        get_gallery_item (create_gallery_item [] images_dir a ts1 ts2 now_iso mongoId).1
          (create_gallery_item [] images_dir a ts1 ts2 now_iso mongoId).2 = some g
        ∧ g.item_id = mongoId
        ∧ g.item_id ≠ (create_gallery_item [] images_dir a ts1 ts2 now_iso mongoId).2 := by
  refine ⟨fun doc => rfl,
    ⟨doc_to_gallery_item (createItemDoc images_dir a ts1 ts2 now_iso mongoId), ?_, rfl, h⟩⟩
  have hm : ((createItemDoc images_dir a ts1 ts2 now_iso mongoId).mongoId ==
      (a.user_id ++ "-" ++ ts2)) = false := by
    simp [createItemDoc, h]
  have hi : ((createItemDoc images_dir a ts1 ts2 now_iso mongoId).item_id ==
      (a.user_id ++ "-" ++ ts2)) = true := by
    simp [createItemDoc]
  show get_gallery_item [createItemDoc images_dir a ts1 ts2 now_iso mongoId]
      (a.user_id ++ "-" ++ ts2) = _
  simp [get_gallery_item, findOne, hm, hi]

/-- C10 witness: fetching the sample creation by its returned readable id
gives back a record whose id is the generated primary key, a different
string. -/
theorem C10_returned_id_is_primary_key_witness :
    ∃ g : GalleryItem,
      get_gallery_item
        (create_gallery_item [] "data/gallery_images" sampleArgs "20250101_120000"
          "20250101_120000" "2025-01-01T12:00:00" "64b0c0ffee0000000000abcd").1
        (create_gallery_item [] "data/gallery_images" sampleArgs "20250101_120000"
          "20250101_120000" "2025-01-01T12:00:00" "64b0c0ffee0000000000abcd").2 = some g
      ∧ g.item_id = "64b0c0ffee0000000000abcd"
      ∧ g.item_id ≠ (create_gallery_item [] "data/gallery_images" sampleArgs "20250101_120000"
          "20250101_120000" "2025-01-01T12:00:00" "64b0c0ffee0000000000abcd").2 :=
  (C10_returned_id_is_primary_key "data/gallery_images" sampleArgs "20250101_120000"
    "20250101_120000" "2025-01-01T12:00:00" "64b0c0ffee0000000000abcd" (by decide)).2

/-- C1 witness: the sample record (image and title set, review missing) is
at the review step. -/
theorem C1_next_step_fixed_order_witness :
    (doc_to_gallery_item sampleDoc).get_next_step = "docent_message" := by
  rw [C1_next_step_fixed_order (doc_to_gallery_item sampleDoc)]
  decide

/-- C2 witness: the sample creation's stored document reads back at the
title step. -/
theorem C2_created_record_next_step_witness :
    (doc_to_gallery_item (createItemDoc "data/gallery_images" sampleArgs "20250101_120000"
      "20250101_120000" "2025-01-01T12:00:00" "64b0c0ffee0000000000abcd")).get_next_step =
      "artwork_title" :=
  (C2_created_record_next_step [] "data/gallery_images" sampleArgs "20250101_120000"
    "20250101_120000" "2025-01-01T12:00:00" "64b0c0ffee0000000000abcd").2.2.2.2
